import Mathlib

/-!
Shallow embedding of the tigera-operator sources under verification:
* the Deep Packet Inspection (DPI) renderer (`pkg/render/intrusiondetection/dpi`),
* the API server controller's `Reconcile` pass (`pkg/controller/apiserver`),
* the ES Gateway renderer's replica-aware affinity (modelled from the spec;
  only its test file is available).

Kubernetes API types are embedded as plain Lean structures carrying the
fields the verified code reads or writes.  Field names follow the Go
source.  External helper packages of the repository that are not part of
the available sources (`pkg/render/common/...`, the certificate manager)
are modelled from the spec where a claim depends on them; each such
definition carries a doc comment saying so.
-/

/-- Kubernetes TypeMeta: kind and apiVersion strings. -/
structure TypeMeta where
  Kind : String
  APIVersion : String
deriving Repr, DecidableEq

/-- Kubernetes ObjectMeta restricted to the fields the embedded code uses. -/
structure ObjectMeta where
  Name : String := ""
  Namespace : String := ""
  Labels : List (String × String) := []
  Annotations : List (String × String) := []
deriving Repr, DecidableEq

/-- Kubernetes Secret restricted to the fields the embedded code uses. -/
structure Secret where
  TypeMeta : TypeMeta := { Kind := "Secret", APIVersion := "v1" }
  ObjectMeta : ObjectMeta
  Data : List (String × String) := []
deriving Repr, DecidableEq

/-- Kubernetes EnvVar; `ValueFromFieldPath` models `ValueFrom.FieldRef.FieldPath`. -/
structure EnvVar where
  Name : String
  Value : String := ""
  ValueFromFieldPath : String := ""
deriving Repr, DecidableEq

/-- Kubernetes VolumeMount restricted to the fields the embedded code uses. -/
structure VolumeMount where
  Name : String
  MountPath : String
deriving Repr, DecidableEq

/-- The volume sources appearing in the embedded renderers. -/
inductive VolumeSource where
  | hostPath (path : String) (type : String)
  | secretSource (secretName : String)
  | emptyDir
  | configMap (name : String)
deriving Repr, DecidableEq

/-- Kubernetes Volume. -/
structure Volume where
  Name : String
  Source : VolumeSource
deriving Repr, DecidableEq

/-- Kubernetes SecurityContext restricted to the `Privileged` flag. -/
structure SecurityContext where
  Privileged : Bool
deriving Repr, DecidableEq

/-- Kubernetes readiness probe restricted to the fields the DPI renderer sets. -/
structure Probe where
  HTTPGetHost : String
  HTTPGetPath : String
  HTTPGetPort : Nat
  HTTPGetScheme : String
  TimeoutSeconds : Nat
  InitialDelaySeconds : Nat
  PeriodSeconds : Nat
deriving Repr, DecidableEq

/-- Kubernetes ResourceRequirements (limits / requests by resource name). -/
structure ResourceRequirements where
  Limits : List (String × String) := []
  Requests : List (String × String) := []
deriving Repr, DecidableEq

/-- Kubernetes Container restricted to the fields the embedded code uses. -/
structure Container where
  Name : String
  Image : String := ""
  Resources : ResourceRequirements := {}
  Env : List EnvVar := []
  VolumeMounts : List VolumeMount := []
  SecurityContext : Option SecurityContext := none
  ReadinessProbe : Option Probe := none
deriving Repr, DecidableEq

/-- Kubernetes PodSpec restricted to the fields the DPI renderer sets.
The `Tolerations` constant `rmeta.TolerateAll` of the source is outside the
available sources and not touched by any claim; it is elided. -/
structure PodSpec where
  ImagePullSecrets : List String := []
  ServiceAccountName : String := ""
  TerminationGracePeriodSeconds : Int := 30
  HostNetwork : Bool := false
  DNSPolicy : String := ""
  InitContainers : List Container := []
  Containers : List Container := []
  Volumes : List Volume := []
deriving Repr, DecidableEq

/-- Kubernetes PodTemplateSpec. -/
structure PodTemplateSpec where
  ObjectMeta : ObjectMeta
  Spec : PodSpec
deriving Repr, DecidableEq

/-- Kubernetes DaemonSet restricted to the fields the DPI renderer sets. -/
structure DaemonSet where
  TypeMeta : TypeMeta
  ObjectMeta : ObjectMeta
  Template : PodTemplateSpec
deriving Repr, DecidableEq

/-- Kubernetes ServiceAccount. -/
structure ServiceAccount where
  TypeMeta : TypeMeta
  ObjectMeta : ObjectMeta
deriving Repr, DecidableEq

/-- Kubernetes RBAC PolicyRule. -/
structure PolicyRule where
  APIGroups : List String := []
  Resources : List String := []
  Verbs : List String := []
  ResourceNames : List String := []
deriving Repr, DecidableEq

/-- Kubernetes RBAC ClusterRole. -/
structure ClusterRole where
  TypeMeta : TypeMeta
  ObjectMeta : ObjectMeta
  Rules : List PolicyRule
deriving Repr, DecidableEq

/-- Kubernetes RBAC RoleRef. -/
structure RoleRef where
  APIGroup : String
  Kind : String
  Name : String
deriving Repr, DecidableEq

/-- Kubernetes RBAC Subject. -/
structure Subject where
  Kind : String
  Name : String
  Namespace : String := ""
deriving Repr, DecidableEq

/-- Kubernetes RBAC ClusterRoleBinding. -/
structure ClusterRoleBinding where
  TypeMeta : TypeMeta
  ObjectMeta : ObjectMeta
  RoleRef : RoleRef
  Subjects : List Subject
deriving Repr, DecidableEq

/-- Kubernetes Namespace resource (cluster scoped, so its ObjectMeta.Namespace is ""). -/
structure NamespaceResource where
  TypeMeta : TypeMeta
  ObjectMeta : ObjectMeta
deriving Repr, DecidableEq

/-- The `client.Object` values the DPI renderer emits; the constructor carries
the Go static type, which determines an object's kind. -/
inductive ClientObject where
  | namespaceObj (n : NamespaceResource)
  | secretObj (s : Secret)
  | serviceAccountObj (sa : ServiceAccount)
  | clusterRoleObj (cr : ClusterRole)
  | clusterRoleBindingObj (crb : ClusterRoleBinding)
  | daemonSetObj (ds : DaemonSet)
deriving Repr, DecidableEq

/-- The kind of a `ClientObject`, determined by its Go static type. -/
def ClientObject.kind : ClientObject → String
  | .namespaceObj _ => "Namespace"
  | .secretObj _ => "Secret"
  | .serviceAccountObj _ => "ServiceAccount"
  | .clusterRoleObj _ => "ClusterRole"
  | .clusterRoleBindingObj _ => "ClusterRoleBinding"
  | .daemonSetObj _ => "DaemonSet"

/-- The ObjectMeta of a `ClientObject`. -/
def ClientObject.objectMeta : ClientObject → ObjectMeta
  | .namespaceObj n => n.ObjectMeta
  | .secretObj s => s.ObjectMeta
  | .serviceAccountObj sa => sa.ObjectMeta
  | .clusterRoleObj cr => cr.ObjectMeta
  | .clusterRoleBindingObj crb => crb.ObjectMeta
  | .daemonSetObj ds => ds.ObjectMeta

/-- Identity of a resource descriptor: (kind, namespace, name), as in the spec. -/
def ClientObject.identity (o : ClientObject) : String × String × String :=
  (o.kind, o.objectMeta.Namespace, o.objectMeta.Name)

/-- The Kubernetes provider enumeration (`operatorv1.Provider`), restricted to
the variants the embedded code compares against. -/
inductive Provider where
  | providerNone
  | providerOpenShift
  | providerEKS
  | providerGKE
  | providerAKS
deriving Repr, DecidableEq

/-- Modelled from the spec: a Key Pair carries "a flag indicating whether the
consumer must mount it as a volume vs. rely on an init step to materialize it"
(`UseCertificateManagement`), a stable hash-annotation key and the material's
fingerprint as its value, and the file paths at which its certificate and key
are mounted.  It models the `certificatemanagement.KeyPairInterface` of the
repository, which is not among the available sources. -/
structure KeyPairModel where
  SecretName : String
  UseCertificateManagement : Bool := false
  CertificateFilePath : String := ""
  KeyFilePath : String := ""
  HashAnnotationKey : String := ""
  HashAnnotationValue : String := ""
deriving Repr, DecidableEq

/-- Modelled from the spec: when TLS material is managed by an external issuer
the workload relies on an init step and the key-pair volume is an emptyDir to
be filled at pod start "instead of mounting a pre-populated secret volume";
otherwise the volume mounts the pre-populated secret. -/
def KeyPairModel.Volume (k : KeyPairModel) : Volume :=
  { Name := k.SecretName,
    Source := if k.UseCertificateManagement then .emptyDir else .secretSource k.SecretName }

/-- Modelled from the spec: the initialization step ("init container") added to
a workload template to materialize an externally issued certificate at pod
start, in the given namespace. -/
def KeyPairModel.InitContainer (k : KeyPairModel) (ns : String) : Container :=
  { Name := k.SecretName ++ ":key-cert-provisioner:" ++ ns }

/-- Modelled from the spec: the volume mount for a key pair's material. -/
def KeyPairModel.VolumeMount (k : KeyPairModel) : VolumeMount :=
  { Name := k.SecretName, MountPath := "/" ++ k.SecretName }

/-- Modelled from the spec: the Trusted Bundle is an aggregated certificate
artifact persisted as a config map, exposing `hashAnnotations()` — a mapping of
annotation key to fingerprint value consumed by the Renderer to stamp pod
templates — and mount information.  It models the repository's
`certificatemanagement.TrustedBundle`, not among the available sources; the
aggregate's annotation map and paths are abstracted as fields. -/
structure TrustedBundleModel where
  HashAnnotationList : List (String × String) := []
  VolumeName : String := "tigera-ca-bundle"
  BundleMountPath : String := "/etc/pki/tls/certs/tigera-ca-bundle.crt"
deriving Repr, DecidableEq

/-- The bundle's `HashAnnotations()` map, as an association list. -/
def TrustedBundleModel.HashAnnotations (b : TrustedBundleModel) : List (String × String) :=
  b.HashAnnotationList

/-- Modelled from the spec: the trusted bundle is distributed as a config-map
volume. -/
def TrustedBundleModel.Volume (b : TrustedBundleModel) : Volume :=
  { Name := b.VolumeName, Source := .configMap b.VolumeName }

/-- Modelled from the spec: the volume mount distributing the trusted bundle. -/
def TrustedBundleModel.VolumeMount (b : TrustedBundleModel) : VolumeMount :=
  { Name := b.VolumeName, MountPath := b.BundleMountPath }

/-- The path of the bundle inside the container (`MountPath()` in the source). -/
def TrustedBundleModel.MountPath (b : TrustedBundleModel) : String :=
  b.BundleMountPath

/-- `render.TyphaNodeTLS`: the trusted bundle, the node key pair and the Typha
peer identification strings, as consumed by the DPI renderer. -/
structure TyphaNodeTLS where
  TrustedBundle : TrustedBundleModel
  NodeSecret : KeyPairModel
  TyphaCommonName : String := ""
  TyphaURISAN : String := ""
deriving Repr, DecidableEq

/-- `relasticsearch.ClusterConfig` as consumed by the DPI renderer: cluster
name, replica and shard counts, plus the decoration data of the external
`relasticsearch.DecorateAnnotations` helper abstracted as an association list
of Elasticsearch fingerprint entries (that helper is not among the available
sources; per the spec it only stamps additional fingerprint entries into a pod
template without removing existing keys). -/
structure ESClusterConfig where
  XClusterName : String := "cluster"
  XReplicas : Nat := 1
  XShards : Nat := 1
  DecorationEntries : List (String × String) := []
deriving Repr, DecidableEq

/-- `ClusterConfig.ClusterName()`. -/
def ESClusterConfig.ClusterName (c : ESClusterConfig) : String := c.XClusterName

/-- `ClusterConfig.Replicas()`. -/
def ESClusterConfig.Replicas (c : ESClusterConfig) : Nat := c.XReplicas

/-- `ClusterConfig.Shards()`. -/
def ESClusterConfig.Shards (c : ESClusterConfig) : Nat := c.XShards

/-- `operatorv1.IntrusionDetection`, restricted to the per-component resource
requirements the DPI renderer reads (`Spec.ComponentResources`). -/
structure IntrusionDetection where
  ComponentResources : List ResourceRequirements := []
deriving Repr, DecidableEq

/-- `operatorv1.InstallationSpec`, restricted to the fields the embedded
renderers read. -/
structure InstallationSpec where
  KubernetesProvider : Provider := .providerNone
  ControlPlaneReplicas : Option Int := none
deriving Repr, DecidableEq

/-- `DPIConfig` contains all the config information needed to render the DPI
component (source struct, with the external pointer types replaced by their
models above). -/
structure DPIConfig where
  IntrusionDetection : IntrusionDetection := {}
  Installation : InstallationSpec := {}
  TyphaNodeTLS : TyphaNodeTLS
  PullSecrets : List Secret := []
  Openshift : Bool := false
  HasNoLicense : Bool := false
  HasNoDPIResource : Bool := false
  ESSecrets : List Secret := []
  ESClusterConfig : ESClusterConfig := {}
  ClusterDomain : String := ""
deriving Repr, DecidableEq

/-- Source constant `DeepPacketInspectionNamespace`. -/
def DeepPacketInspectionNamespace : String := "tigera-dpi"

/-- Source constant `DeepPacketInspectionName`. -/
def DeepPacketInspectionName : String := "tigera-dpi"

/-- External constant `relasticsearch.PublicCertSecret`; the exact literal is
outside the available sources and irrelevant to the claims (only the kind and
namespace of the secret carrying it matter). -/
def relasticsearchPublicCertSecret : String := "tigera-secure-es-gateway-http-certs-public"

/-- External constant `common.CalicoNamespace`. -/
def commonCalicoNamespace : String := "calico-system"

/-- External constant `render.TyphaServiceName`. -/
def renderTyphaServiceName : String := "calico-typha"

/-- External constant `render.ElasticsearchIntrusionDetectionUserSecret`. -/
def renderElasticsearchIntrusionDetectionUserSecret : String :=
  "tigera-ee-intrusion-detection-elasticsearch-access"

/-- Modelled from the spec: `render.CreateNamespace(name, provider, pss)`
(outside the available sources) builds the feature's cluster-scoped Namespace
resource; its provider-dependent labels are not touched by any claim and are
elided. -/
def renderCreateNamespace (name : String) (_provider : Provider) : NamespaceResource :=
  { TypeMeta := { Kind := "Namespace", APIVersion := "v1" },
    ObjectMeta := { Name := name, Namespace := "" } }

/-- Modelled from the spec: `secret.CopyToNamespace(ns, secrets...)` (outside
the available sources) returns copies of the given secrets that keep their
names but live in the target namespace. -/
def secretCopyToNamespace (ns : String) (secrets : List Secret) : List Secret :=
  secrets.map fun s =>
    { TypeMeta := s.TypeMeta,
      ObjectMeta := { Name := s.ObjectMeta.Name, Namespace := ns },
      Data := s.Data }

/-- `secret.ToRuntimeObjects`: each secret as a `client.Object`. -/
def secretToRuntimeObjects (secrets : List Secret) : List ClientObject :=
  secrets.map ClientObject.secretObj

/-- `secret.GetReferenceList`: the pull secrets as local object references
(their names). -/
def secretGetReferenceList (secrets : List Secret) : List String :=
  secrets.map fun s => s.ObjectMeta.Name

/-- Go map assignment `m[k] = v` on the association-list model of a map:
replace the binding of `k` when present, otherwise add it. -/
def mapInsert (m : List (String × String)) (k v : String) : List (String × String) :=
  if m.any (fun p => p.fst == k) then
    m.map (fun p => if p.fst == k then (k, v) else p)
  else
    m ++ [(k, v)]

/-- Modelled from the spec: `relasticsearch.DecorateAnnotations` (outside the
available sources) stamps Elasticsearch fingerprint entries — abstracted as
`DecorationEntries` of the cluster config — into the pod template, preserving
all entries already present; no other field of the template changes. -/
def relasticsearchDecorateAnnotations (tpl : PodTemplateSpec) (config : ESClusterConfig)
    (_secrets : List Secret) : PodTemplateSpec :=
  { tpl with ObjectMeta :=
      { tpl.ObjectMeta with Annotations := tpl.ObjectMeta.Annotations ++ config.DecorationEntries } }

/-- Modelled from the spec: `relasticsearch.ContainerDecorate` (outside the
available sources) adds Elasticsearch connection environment variables derived
from its arguments and leaves every other field of the container unchanged. -/
def relasticsearchContainerDecorate (c : Container) (clusterName userSecret clusterDomain : String) :
    Container :=
  { c with Env := c.Env ++
      [{ Name := "ELASTIC_CLUSTER_NAME", Value := clusterName },
       { Name := "ELASTIC_USER_SECRET", Value := userSecret },
       { Name := "ELASTIC_CLUSTER_DOMAIN", Value := clusterDomain }] }

/-- Modelled from the spec: `relasticsearch.ContainerDecorateIndexCreator`
(outside the available sources) adds index-creation environment variables
derived from the replica and shard counts and leaves every other field of the
container unchanged. -/
def relasticsearchContainerDecorateIndexCreator (c : Container) (replicas shards : Nat) :
    Container :=
  { c with Env := c.Env ++
      [{ Name := "ELASTIC_REPLICAS", Value := toString replicas },
       { Name := "ELASTIC_INDEX_SHARDS", Value := toString shards }] }

/-- The DPI component: its configuration plus the image reference that
`ResolveImages` fills in (`""` until then, the Go zero value). -/
structure dpiComponent where
  cfg : DPIConfig
  dpiImage : String := ""
deriving Repr, DecidableEq

/-- `DPI(cfg)`: build the DPI render component from a configuration. -/
def DPI (cfg : DPIConfig) : dpiComponent := { cfg := cfg }

/-- `dpiComponent.dpiEnvVars` (translated from the source). -/
def dpiComponent.dpiEnvVars (d : dpiComponent) : List EnvVar :=
  let env : List EnvVar :=
    [{ Name := "DPI_NODENAME", ValueFromFieldPath := "spec.nodeName" },
     { Name := "DPI_TYPHAK8SNAMESPACE", Value := commonCalicoNamespace },
     { Name := "DPI_TYPHAK8SSERVICENAME", Value := renderTyphaServiceName },
     { Name := "DPI_TYPHACAFILE", Value := d.cfg.TyphaNodeTLS.TrustedBundle.MountPath },
     { Name := "DPI_TYPHACERTFILE", Value := d.cfg.TyphaNodeTLS.NodeSecret.CertificateFilePath },
     { Name := "DPI_TYPHAKEYFILE", Value := d.cfg.TyphaNodeTLS.NodeSecret.KeyFilePath }]
  let env := if d.cfg.TyphaNodeTLS.TyphaCommonName ≠ "" then
      env ++ [{ Name := "DPI_TYPHACN", Value := d.cfg.TyphaNodeTLS.TyphaCommonName }]
    else env
  let env := if d.cfg.TyphaNodeTLS.TyphaURISAN ≠ "" then
      env ++ [{ Name := "DPI_TYPHAURISAN", Value := d.cfg.TyphaNodeTLS.TyphaURISAN }]
    else env
  env

/-- `dpiComponent.dpiVolumeMounts` (translated from the source). -/
def dpiComponent.dpiVolumeMounts (d : dpiComponent) : List VolumeMount :=
  [d.cfg.TyphaNodeTLS.TrustedBundle.VolumeMount,
   d.cfg.TyphaNodeTLS.NodeSecret.VolumeMount,
   { MountPath := "/var/log/calico/snort-alerts", Name := "log-snort-alters" }]

/-- `dpiComponent.dpiReadinessProbes` (translated from the source). -/
def dpiComponent.dpiReadinessProbes (_d : dpiComponent) : Probe :=
  { HTTPGetHost := "localhost",
    HTTPGetPath := "/readiness",
    HTTPGetPort := 9097,
    HTTPGetScheme := "HTTP",
    TimeoutSeconds := 10,
    InitialDelaySeconds := 90,
    PeriodSeconds := 10 }

/-- `dpiComponent.dpiContainer` (translated from the source).  The source
indexes `ComponentResources[0]` unconditionally; `headD {}` models the defined
case (the controller guarantees the slice is non-empty). -/
def dpiComponent.dpiContainer (d : dpiComponent) : Container :=
  let privileged := if d.cfg.Openshift then true else false
  let dpiContainer : Container :=
    { Name := DeepPacketInspectionName,
      Image := d.dpiImage,
      Resources := d.cfg.IntrusionDetection.ComponentResources.headD {},
      Env := d.dpiEnvVars,
      VolumeMounts := d.dpiVolumeMounts,
      SecurityContext := some { Privileged := privileged },
      ReadinessProbe := some d.dpiReadinessProbes }
  relasticsearchContainerDecorateIndexCreator
    (relasticsearchContainerDecorate dpiContainer d.cfg.ESClusterConfig.ClusterName
      renderElasticsearchIntrusionDetectionUserSecret d.cfg.ClusterDomain)
    d.cfg.ESClusterConfig.Replicas d.cfg.ESClusterConfig.Shards

/-- `dpiComponent.dpiVolumes` (translated from the source). -/
def dpiComponent.dpiVolumes (d : dpiComponent) : List Volume :=
  [d.cfg.TyphaNodeTLS.TrustedBundle.Volume,
   d.cfg.TyphaNodeTLS.NodeSecret.Volume,
   { Name := "log-snort-alters",
     Source := .hostPath "/var/log/calico/snort-alerts" "DirectoryOrCreate" }]

/-- `dpiComponent.dpiAnnotations` (translated from the source); the Go `nil`
map is `none`. -/
def dpiComponent.dpiAnnotations (d : dpiComponent) : Option (List (String × String)) :=
  if d.cfg.HasNoDPIResource || d.cfg.HasNoLicense then
    none
  else
    some (mapInsert d.cfg.TyphaNodeTLS.TrustedBundle.HashAnnotations
      d.cfg.TyphaNodeTLS.NodeSecret.HashAnnotationKey
      d.cfg.TyphaNodeTLS.NodeSecret.HashAnnotationValue)

/-- `dpiComponent.dpiDaemonset` (translated from the source). -/
def dpiComponent.dpiDaemonset (d : dpiComponent) : DaemonSet :=
  let terminationGracePeriod : Int := 0
  let initContainers : List Container :=
    if d.cfg.TyphaNodeTLS.NodeSecret.UseCertificateManagement then
      [d.cfg.TyphaNodeTLS.NodeSecret.InitContainer DeepPacketInspectionNamespace]
    else []
  let podTemplate := relasticsearchDecorateAnnotations
    { ObjectMeta := { Annotations := (d.dpiAnnotations).getD [] },
      Spec :=
        { ImagePullSecrets := secretGetReferenceList d.cfg.PullSecrets,
          ServiceAccountName := DeepPacketInspectionName,
          TerminationGracePeriodSeconds := terminationGracePeriod,
          HostNetwork := true,
          DNSPolicy := "ClusterFirstWithHostNet",
          InitContainers := initContainers,
          Containers := [d.dpiContainer],
          Volumes := d.dpiVolumes } }
    d.cfg.ESClusterConfig d.cfg.ESSecrets
  { TypeMeta := { Kind := "DaemonSet", APIVersion := "apps/v1" },
    ObjectMeta :=
      { Name := DeepPacketInspectionName, Namespace := DeepPacketInspectionNamespace },
    Template := podTemplate }

/-- `dpiComponent.dpiServiceAccount` (translated from the source). -/
def dpiComponent.dpiServiceAccount (_d : dpiComponent) : ServiceAccount :=
  { TypeMeta := { Kind := "ServiceAccount", APIVersion := "v1" },
    ObjectMeta :=
      { Name := DeepPacketInspectionName, Namespace := DeepPacketInspectionNamespace } }

/-- `dpiComponent.dpiClusterRoleBinding` (translated from the source). -/
def dpiComponent.dpiClusterRoleBinding (_d : dpiComponent) : ClusterRoleBinding :=
  { TypeMeta := { Kind := "ClusterRoleBinding", APIVersion := "rbac.authorization.k8s.io/v1" },
    ObjectMeta := { Name := DeepPacketInspectionName, Labels := [] },
    RoleRef :=
      { APIGroup := "rbac.authorization.k8s.io",
        Kind := "ClusterRole",
        Name := DeepPacketInspectionName },
    Subjects :=
      [{ Kind := "ServiceAccount",
         Name := DeepPacketInspectionName,
         Namespace := DeepPacketInspectionNamespace }] }

/-- The pod-security-policy "use" rule appended for non-OpenShift providers. -/
def dpiPSPRule : PolicyRule :=
  { APIGroups := ["policy"],
    Resources := ["podsecuritypolicies"],
    Verbs := ["use"],
    ResourceNames := [DeepPacketInspectionName] }

/-- `dpiComponent.dpiClusterRole` (translated from the source). -/
def dpiComponent.dpiClusterRole (d : dpiComponent) : ClusterRole :=
  let role : ClusterRole :=
    { TypeMeta := { Kind := "ClusterRole", APIVersion := "rbac.authorization.k8s.io/v1" },
      ObjectMeta := { Name := DeepPacketInspectionName },
      Rules :=
        [{ APIGroups := ["crd.projectcalico.org"],
           Resources := ["deeppacketinspections"],
           Verbs := ["get", "list", "watch"] },
         { APIGroups := ["crd.projectcalico.org"],
           Resources := ["deeppacketinspections/status"],
           Verbs := ["update"] },
         { APIGroups := [""],
           Resources := ["endpoints", "services"],
           Verbs := ["watch", "list", "get"] }] }
  if d.cfg.Installation.KubernetesProvider ≠ Provider.providerOpenShift then
    { role with Rules := role.Rules ++ [dpiPSPRule] }
  else
    role

/-- `dpiComponent.Objects` (translated from the source): the (toCreate,
toDelete) pair of the Render Result. -/
def dpiComponent.Objects (d : dpiComponent) : List ClientObject × List ClientObject :=
  let nsObject : ClientObject :=
    .namespaceObj (renderCreateNamespace DeepPacketInspectionNamespace
      d.cfg.Installation.KubernetesProvider)
  let (toCreate, toDelete) :=
    if d.cfg.HasNoLicense then
      (([] : List ClientObject), [nsObject])
    else
      ([nsObject], ([] : List ClientObject))
  if d.cfg.HasNoDPIResource || d.cfg.HasNoLicense then
    (toCreate,
     toDelete
       ++ [.secretObj
            { TypeMeta := { Kind := "Secret", APIVersion := "v1" },
              ObjectMeta :=
                { Name := relasticsearchPublicCertSecret,
                  Namespace := DeepPacketInspectionNamespace } }]
       ++ secretToRuntimeObjects (secretCopyToNamespace DeepPacketInspectionNamespace d.cfg.PullSecrets)
       ++ [.serviceAccountObj d.dpiServiceAccount,
           .clusterRoleObj d.dpiClusterRole,
           .clusterRoleBindingObj d.dpiClusterRoleBinding,
           .daemonSetObj d.dpiDaemonset])
  else
    (toCreate
       ++ secretToRuntimeObjects (secretCopyToNamespace DeepPacketInspectionNamespace d.cfg.ESSecrets)
       ++ secretToRuntimeObjects (secretCopyToNamespace DeepPacketInspectionNamespace d.cfg.PullSecrets)
       ++ [.serviceAccountObj d.dpiServiceAccount,
           .clusterRoleObj d.dpiClusterRole,
           .clusterRoleBindingObj d.dpiClusterRoleBinding,
           .daemonSetObj d.dpiDaemonset],
     toDelete)

/-- The result of a fallible fetch from the cluster API in the controller
model: success, a not-found condition (distinguished by `errors.IsNotFound`),
or another error carrying its message. -/
inductive FetchResult (α : Type) where
  | ok (value : α)
  | notFound
  | fetchErr (msg : String)
deriving Repr, DecidableEq

/-- Variant constant `operatorv1.TigeraSecureEnterprise`. -/
def TigeraSecureEnterprise : String := "TigeraSecureEnterprise"

/-- The error text of the mutually-exclusive-topology check in the source. -/
def bothManagementClustersMsg : String :=
  "having both a ManagementCluster and a ManagementClusterConnection is not supported"

/-- The environment of one `ReconcileAPIServer.Reconcile` pass: the outcome of
every cluster interaction the pass performs, in source order.  Each `Except`
or `FetchResult` field stands for the value the corresponding call would
return during that pass.  `GetTunnelKeyPair` models `GetKeyPair`'s pair of
returns (key pair or nil, error or nil).  `CreateSelfSignedSecret`'s error is
shadowed in the source (a `:=` rebinding inside the inner if) and only
affects the passthrough component, which the embedding does not track. -/
structure APIServerReconcileEnv where
  GetAPIServer : FetchResult Unit
  GetInstallation : FetchResult String
  CertificateManagerCreate : Except String Unit
  GetOrCreateKeyPair : Except String Unit
  GetNetworkingPullSecrets : Except String Unit
  GetManagementCluster : Except String (Option Unit)
  GetManagementClusterConnection : Except String (Option Unit)
  GetTunnelKeyPair : Option Unit × Option String
  AmazonCRDExists : Bool
  GetAmazonCloudIntegration : FetchResult Unit
  GetK8sServiceEndPoint : Except String Unit
  RenderAPIServer : Except String Unit
  GetPacketCaptureKeyPair : Except String Unit
  GetAuthenticationCR : FetchResult Unit
  GetKeyValidatorConfig : Except String Unit
  ApplyImageSet : Except String Unit
  CreateOrUpdateOrDelete : Except String Unit
  StatusIsAvailable : Bool
  StatusUpdate : Except String Unit

/-- The observable outcome of one `Reconcile` pass: the requeue delay of the
returned `reconcile.Result`, the returned error, the last `SetDegraded`
message still in force (none after `ClearDegraded`), and whether
`render.APIServer` — the renderer — was invoked during the pass. -/
structure ReconcileOutcome where
  RequeueAfterSeconds : Nat := 0
  Err : Option String := none
  Degraded : Option String := none
  RendererInvoked : Bool := false
deriving Repr, DecidableEq

/-- The tail of the pass from `render.APIServer` (source line 309) onward:
every outcome built here records that the renderer was invoked. -/
def reconcileAPIServerRenderTail (env : APIServerReconcileEnv) (variant : String) :
    ReconcileOutcome :=
  match env.RenderAPIServer with
  | .error e => { RendererInvoked := true, Err := some e, Degraded := some "Error rendering APIServer" }
  | .ok _ =>
    let enterpriseFailure : Option ReconcileOutcome :=
      if variant = TigeraSecureEnterprise then
        match env.GetPacketCaptureKeyPair with
        | .error e =>
          some { RendererInvoked := true, Err := some e,
                 Degraded := some "Error retrieve or creating packet capture TLS certificate" }
        | .ok _ =>
          match env.GetAuthenticationCR with
          | .fetchErr e =>
            some { RendererInvoked := true, Err := some e,
                   Degraded := some "Error querying Authentication" }
          | _ =>
            match env.GetKeyValidatorConfig with
            | .error e =>
              some { RendererInvoked := true, Err := some e,
                     Degraded := some "Failed to process the authentication CR." }
            | .ok _ => none
      else none
    match enterpriseFailure with
    | some out => out
    | none =>
      match env.ApplyImageSet with
      | .error e =>
        { RendererInvoked := true, Err := some e, Degraded := some "Error with images from ImageSet" }
      | .ok _ =>
        match env.CreateOrUpdateOrDelete with
        | .error e =>
          { RendererInvoked := true, Err := some e,
            Degraded := some "Error creating / updating resource" }
        | .ok _ =>
          if !env.StatusIsAvailable then
            { RendererInvoked := true, RequeueAfterSeconds := 30 }
          else
            match env.StatusUpdate with
            | .error e => { RendererInvoked := true, Err := some e }
            | .ok _ => { RendererInvoked := true }

/-- The enterprise-only middle section of the pass (source lines 232-281):
management-cluster fetches, the mutual-exclusion check, the tunnel secret and
the Amazon integration; then the common steps up to the renderer. -/
def reconcileAPIServerEnterprise (env : APIServerReconcileEnv) (variant : String) :
    ReconcileOutcome :=
  let commonTail : ReconcileOutcome :=
    match env.GetK8sServiceEndPoint with
    | .error e =>
      { Err := some e, Degraded := some "Error reading services endpoint configmap" }
    | .ok _ => reconcileAPIServerRenderTail env variant
  if variant = TigeraSecureEnterprise then
    match env.GetManagementCluster with
    | .error e => { Err := some e, Degraded := some "Error reading ManagementCluster" }
    | .ok mc =>
      match env.GetManagementClusterConnection with
      | .error e => { Err := some e, Degraded := some "Error reading ManagementClusterConnection" }
      | .ok mcc =>
        if mcc.isSome && mc.isSome then
          { Err := some bothManagementClustersMsg, Degraded := some bothManagementClustersMsg }
        else
          let tunnelFailure : Option ReconcileOutcome :=
            match mc with
            | some _ =>
              match env.GetTunnelKeyPair.snd with
              | some e =>
                some { Err := some e, Degraded := some "Unable to get or create the tunnel secret" }
              | none => none
            | none => none
          match tunnelFailure with
          | some out => out
          | none =>
            let amazonFailure : Option ReconcileOutcome :=
              if env.AmazonCRDExists then
                match env.GetAmazonCloudIntegration with
                | .fetchErr e =>
                  some { Err := some e, Degraded := some "Error reading AmazonCloudIntegration" }
                | _ => none
              else none
            match amazonFailure with
            | some out => out
            | none => commonTail
  else
    commonTail

/-- `ReconcileAPIServer.Reconcile` (translated from the source): the sequence
of guarded steps of one pass, as a function of the pass's environment. -/
def reconcileAPIServer (env : APIServerReconcileEnv) : ReconcileOutcome :=
  match env.GetAPIServer with
  | .notFound => {}
  | .fetchErr m => { Err := some m, Degraded := some m }
  | .ok _ =>
    match env.GetInstallation with
    | .notFound =>
      { Err := some "Installation not found", Degraded := some "Installation not found" }
    | .fetchErr m => { Err := some m, Degraded := some "Error querying installation" }
    | .ok variant =>
      if variant = "" then
        { Degraded := some "Waiting for Installation to be ready" }
      else
        match env.CertificateManagerCreate with
        | .error e => { Err := some e, Degraded := some "Unable to create the Tigera CA" }
        | .ok _ =>
          match env.GetOrCreateKeyPair with
          | .error e => { Err := some e, Degraded := some "Unable to get or create tls key pair" }
          | .ok _ =>
            match env.GetNetworkingPullSecrets with
            | .error e => { Err := some e, Degraded := some "Error retrieving pull secrets" }
            | .ok _ => reconcileAPIServerEnterprise env variant

/-- Source constant `esgateway.DeploymentName`. -/
def esgatewayDeploymentName : String := "tigera-secure-es-gateway"

/-- External constant `render.ElasticsearchNamespace`. -/
def renderElasticsearchNamespace : String := "tigera-elasticsearch"

/-- Modelled from the spec: the ES Gateway renderer is not among the available
sources (only its test file is).  Per the spec's replica-aware anti-affinity
policy and the test's expectations, the rendered deployment's pod template
carries a pod anti-affinity constraint — `podaffinity.NewPodAntiAffinity(name,
namespace)`, modelled by its argument pair — exactly when the installation's
control-plane replica count exceeds one, and no affinity otherwise. -/
structure ESGatewayDeploymentModel where
  Affinity : Option (String × String)
deriving Repr, DecidableEq

/-- Modelled from the spec: the affinity-relevant part of the ES Gateway
deployment rendered from an installation spec. -/
def esGatewayDeployment (installation : InstallationSpec) : ESGatewayDeploymentModel :=
  { Affinity :=
      match installation.ControlPlaneReplicas with
      | some r =>
        if r > 1 then some (esgatewayDeploymentName, renderElasticsearchNamespace) else none
      | none => none }

/-- A concrete TLS input used by the witnesses: one bundle fingerprint entry
plus a node key pair with its own hash-annotation key and fingerprint. -/
def typhaNodeTLSExample : TyphaNodeTLS :=
  { TrustedBundle := { HashAnnotationList := [("hash.operator.tigera.io/tigera-ca-private", "fp-bundle")] },
    NodeSecret :=
      { SecretName := "node-certs",
        CertificateFilePath := "/node-certs/cert.crt",
        KeyFilePath := "/node-certs/key.key",
        HashAnnotationKey := "hash.operator.tigera.io/node-certs",
        HashAnnotationValue := "fp-node" } }

/-- A concrete configuration with both prerequisites satisfied. -/
def cfgFull : DPIConfig :=
  { TyphaNodeTLS := typhaNodeTLSExample,
    PullSecrets := [{ ObjectMeta := { Name := "tigera-pull-secret", Namespace := "tigera-operator" } }],
    ESSecrets := [{ ObjectMeta := { Name := "tigera-ee-intrusion-detection-elasticsearch-access",
                                    Namespace := "tigera-operator" } }],
    ESClusterConfig := { DecorationEntries := [("hash.operator.tigera.io/elasticsearch-configmap", "fp-es")] } }

/-- A concrete configuration whose only failing prerequisite is the missing
DeepPacketInspection resource (the license is present). -/
def cfgOnlyNoDPI : DPIConfig :=
  { cfgFull with HasNoDPIResource := true }

/-- A concrete configuration with no license. -/
def cfgNoLicense : DPIConfig :=
  { cfgFull with HasNoLicense := true }

/-- A concrete configuration whose node key pair is managed by an external
certificate issuer. -/
def cfgCertMgmt : DPIConfig :=
  { cfgFull with TyphaNodeTLS :=
      { typhaNodeTLSExample with NodeSecret :=
          { typhaNodeTLSExample.NodeSecret with UseCertificateManagement := true } } }

/-- All owned objects of the DPI feature — the Elasticsearch public-certificate
secret copy, the copied pull secrets, the service account, the cluster role,
the cluster role binding and the daemonset — appear in the toDelete list. -/
def dpiOwnedInDelete (cfg : DPIConfig) : Prop :=
  ClientObject.secretObj
      { TypeMeta := { Kind := "Secret", APIVersion := "v1" },
        ObjectMeta := { Name := relasticsearchPublicCertSecret,
                        Namespace := DeepPacketInspectionNamespace } } ∈ (DPI cfg).Objects.snd ∧
  (∀ s ∈ secretCopyToNamespace DeepPacketInspectionNamespace cfg.PullSecrets,
      ClientObject.secretObj s ∈ (DPI cfg).Objects.snd) ∧
  ClientObject.serviceAccountObj ((DPI cfg).dpiServiceAccount) ∈ (DPI cfg).Objects.snd ∧
  ClientObject.clusterRoleObj ((DPI cfg).dpiClusterRole) ∈ (DPI cfg).Objects.snd ∧
  ClientObject.clusterRoleBindingObj ((DPI cfg).dpiClusterRoleBinding) ∈ (DPI cfg).Objects.snd ∧
  ClientObject.daemonSetObj ((DPI cfg).dpiDaemonset) ∈ (DPI cfg).Objects.snd

/-- A concrete reconciliation environment in which every step succeeds and
both a ManagementCluster and a ManagementClusterConnection are present. -/
def envBoth : APIServerReconcileEnv :=
  { GetAPIServer := .ok (),
    GetInstallation := .ok TigeraSecureEnterprise,
    CertificateManagerCreate := .ok (),
    GetOrCreateKeyPair := .ok (),
    GetNetworkingPullSecrets := .ok (),
    GetManagementCluster := .ok (some ()),
    GetManagementClusterConnection := .ok (some ()),
    GetTunnelKeyPair := (none, none),
    AmazonCRDExists := false,
    GetAmazonCloudIntegration := .notFound,
    GetK8sServiceEndPoint := .ok (),
    RenderAPIServer := .ok (),
    GetPacketCaptureKeyPair := .ok (),
    GetAuthenticationCR := .ok (),
    GetKeyValidatorConfig := .ok (),
    ApplyImageSet := .ok (),
    CreateOrUpdateOrDelete := .ok (),
    StatusIsAvailable := true,
    StatusUpdate := .ok () }

/-- Go map assignment binds the assigned key to the assigned value. -/
theorem mapInsert_mem_self (m : List (String × String)) (k v : String) :
    (k, v) ∈ mapInsert m k v := by
  unfold mapInsert
  by_cases h : m.any (fun p => p.fst == k)
  · simp only [h, if_true]
    rcases List.any_eq_true.mp h with ⟨p, hp, hpk⟩
    exact List.mem_map.mpr ⟨p, hp, by simp [hpk]⟩
  · simp [h]

/-- Go map assignment keeps every binding whose key differs from the assigned
key. -/
theorem mapInsert_mem_of_mem (m : List (String × String)) (k v : String)
    (kv : String × String) (hmem : kv ∈ m) (hne : kv.fst ≠ k) :
    kv ∈ mapInsert m k v := by
  unfold mapInsert
  by_cases h : m.any (fun p => p.fst == k)
  · simp only [h, if_true]
    refine List.mem_map.mpr ⟨kv, hmem, ?_⟩
    simp [hne]
  · simp [h, List.mem_append]
    exact Or.inl hmem

/-- Claim C4: the DPI renderer is a deterministic pure function of its
configuration — components built from identical `DPIConfig` values yield
identical (toCreate, toDelete) pairs from `Objects()`; no hidden mutable
state influences the result. -/
theorem dpi_renderer_pure (cfg₁ cfg₂ : DPIConfig) (h : cfg₁ = cfg₂) :
    (DPI cfg₁).Objects = (DPI cfg₂).Objects := by
  rw [h]

/-- Witness for C4 at a concrete configuration. -/
theorem dpi_renderer_pure_witness :
    (DPI cfgFull).Objects = (DPI cfgFull).Objects :=
  dpi_renderer_pure cfgFull cfgFull rfl

/-- Claim C5: for the ES Gateway renderer (modelled from the spec and its
test), a control-plane replica count of 1 yields no anti-affinity constraint
(`Affinity` is nil), a count greater than 1 yields the pod anti-affinity
constraint, and the two states are distinguished exactly at the single/multi
boundary. -/
theorem esgateway_affinity_boundary (installation : InstallationSpec) (r : Int)
    (h : installation.ControlPlaneReplicas = some r) :
    ((esGatewayDeployment installation).Affinity ≠ none ↔ 1 < r) ∧
    (r = 1 → (esGatewayDeployment installation).Affinity = none) ∧
    (1 < r → (esGatewayDeployment installation).Affinity =
      some (esgatewayDeploymentName, renderElasticsearchNamespace)) := by
  refine ⟨?_, ?_, ?_⟩
  · by_cases hr : 1 < r <;> simp [esGatewayDeployment, h, hr]
  · intro h1
    subst h1
    norm_num [esGatewayDeployment, h]
  · intro hr
    simp [esGatewayDeployment, h, hr]

/-- Witness for C5 at replica counts 1, 2 and 3. -/
theorem esgateway_affinity_boundary_witness :
    (esGatewayDeployment { ControlPlaneReplicas := some 1 }).Affinity = none ∧
    (esGatewayDeployment { ControlPlaneReplicas := some 2 }).Affinity ≠ none ∧
    (esGatewayDeployment { ControlPlaneReplicas := some 3 }).Affinity ≠ none :=
  ⟨(esgateway_affinity_boundary _ 1 rfl).2.1 rfl,
   (esgateway_affinity_boundary _ 2 rfl).1.mpr (by norm_num),
   (esgateway_affinity_boundary _ 3 rfl).1.mpr (by norm_num)⟩

/-- Claim C7: when the node TLS key pair is managed by an external certificate
issuer, the DPI daemonset's pod template contains the init container that
materializes the certificate at pod start and the key-pair volume is not a
pre-populated secret volume; when it is not, no init container is present and
the volume mounts the pre-populated secret. -/
theorem dpi_certificate_management_mode (cfg : DPIConfig) :
    (((DPI cfg).dpiDaemonset).Template.Spec.InitContainers ≠ [] ↔
      cfg.TyphaNodeTLS.NodeSecret.UseCertificateManagement = true) ∧
    (cfg.TyphaNodeTLS.NodeSecret.UseCertificateManagement = true →
      ((DPI cfg).dpiDaemonset).Template.Spec.InitContainers =
          [cfg.TyphaNodeTLS.NodeSecret.InitContainer DeepPacketInspectionNamespace] ∧
      cfg.TyphaNodeTLS.NodeSecret.Volume.Source = VolumeSource.emptyDir) ∧
    (cfg.TyphaNodeTLS.NodeSecret.UseCertificateManagement = false →
      ((DPI cfg).dpiDaemonset).Template.Spec.InitContainers = [] ∧
      cfg.TyphaNodeTLS.NodeSecret.Volume.Source =
        VolumeSource.secretSource cfg.TyphaNodeTLS.NodeSecret.SecretName) := by
  cases hu : cfg.TyphaNodeTLS.NodeSecret.UseCertificateManagement <;>
    simp [dpiComponent.dpiDaemonset, DPI, relasticsearchDecorateAnnotations,
      KeyPairModel.Volume, hu]

/-- Witness for C7 in both certificate-management modes. -/
theorem dpi_certificate_management_mode_witness :
    ((DPI cfgCertMgmt).dpiDaemonset).Template.Spec.InitContainers =
        [cfgCertMgmt.TyphaNodeTLS.NodeSecret.InitContainer DeepPacketInspectionNamespace] ∧
    cfgCertMgmt.TyphaNodeTLS.NodeSecret.Volume.Source = VolumeSource.emptyDir ∧
    ((DPI cfgFull).dpiDaemonset).Template.Spec.InitContainers = [] :=
  ⟨((dpi_certificate_management_mode cfgCertMgmt).2.1 rfl).1,
   ((dpi_certificate_management_mode cfgCertMgmt).2.1 rfl).2,
   ((dpi_certificate_management_mode cfgFull).2.2 rfl).1⟩

/-- Claim C8: platform-specific fields are controlled by the provider flags —
the DPI container is privileged exactly when the `Openshift` flag is true, and
the cluster role contains the pod-security-policy "use" rule exactly when the
Kubernetes provider is not OpenShift. -/
theorem dpi_provider_variation (cfg : DPIConfig) :
    ((DPI cfg).dpiContainer).SecurityContext = some { Privileged := cfg.Openshift } ∧
    (dpiPSPRule ∈ ((DPI cfg).dpiClusterRole).Rules ↔
      cfg.Installation.KubernetesProvider ≠ Provider.providerOpenShift) := by
  constructor
  · cases ho : cfg.Openshift <;>
      simp [dpiComponent.dpiContainer, DPI, relasticsearchContainerDecorate,
        relasticsearchContainerDecorateIndexCreator, ho]
  · by_cases hp : cfg.Installation.KubernetesProvider = Provider.providerOpenShift <;>
      simp [dpiComponent.dpiClusterRole, DPI, hp, dpiPSPRule]

/-- Witness for C8 at a concrete non-OpenShift configuration. -/
theorem dpi_provider_variation_witness :
    (DPI cfgFull).dpiContainer.SecurityContext = some { Privileged := false } ∧
    dpiPSPRule ∈ ((DPI cfgFull).dpiClusterRole).Rules :=
  ⟨(dpi_provider_variation cfgFull).1,
   (dpi_provider_variation cfgFull).2.mpr (by decide)⟩

/-- Claim C10: if a prerequisite fails, `dpiAnnotations` returns nil, and the
daemonset rendered for deletion carries no certificate hash entries on its pod
template — only the Elasticsearch decoration entries remain. -/
theorem dpi_annotations_gated (cfg : DPIConfig)
    (h : cfg.HasNoDPIResource = true ∨ cfg.HasNoLicense = true) :
    (DPI cfg).dpiAnnotations = none ∧
    ((DPI cfg).dpiDaemonset).Template.ObjectMeta.Annotations =
      cfg.ESClusterConfig.DecorationEntries := by
  have hcond : (cfg.HasNoDPIResource || cfg.HasNoLicense) = true := by
    rcases h with h | h <;> simp [h]
  constructor
  · simp [dpiComponent.dpiAnnotations, DPI, hcond]
  · simp [dpiComponent.dpiDaemonset, DPI, relasticsearchDecorateAnnotations,
      dpiComponent.dpiAnnotations, hcond]

/-- Witness for C10 at a concrete license-less configuration. -/
theorem dpi_annotations_gated_witness :
    (DPI cfgNoLicense).dpiAnnotations = none ∧
    ((DPI cfgNoLicense).dpiDaemonset).Template.ObjectMeta.Annotations =
      cfgNoLicense.ESClusterConfig.DecorationEntries :=
  dpi_annotations_gated cfgNoLicense (Or.inr rfl)

/-- Claim C6: when both prerequisites hold, the DPI daemonset's pod template
carries the node key pair's hash-annotation key bound to its fingerprint and
every trusted-bundle hash entry (each tracked certificate material source). -/
theorem dpi_annotation_stamping (cfg : DPIConfig)
    (hL : cfg.HasNoLicense = false) (hD : cfg.HasNoDPIResource = false) :
    ((cfg.TyphaNodeTLS.NodeSecret.HashAnnotationKey,
      cfg.TyphaNodeTLS.NodeSecret.HashAnnotationValue) ∈
        ((DPI cfg).dpiDaemonset).Template.ObjectMeta.Annotations) ∧
    ∀ kv ∈ cfg.TyphaNodeTLS.TrustedBundle.HashAnnotations,
      kv.fst ≠ cfg.TyphaNodeTLS.NodeSecret.HashAnnotationKey →
      kv ∈ ((DPI cfg).dpiDaemonset).Template.ObjectMeta.Annotations := by
  have hAnn : ((DPI cfg).dpiDaemonset).Template.ObjectMeta.Annotations =
      mapInsert cfg.TyphaNodeTLS.TrustedBundle.HashAnnotations
        cfg.TyphaNodeTLS.NodeSecret.HashAnnotationKey
        cfg.TyphaNodeTLS.NodeSecret.HashAnnotationValue
        ++ cfg.ESClusterConfig.DecorationEntries := by
    simp [dpiComponent.dpiDaemonset, DPI, relasticsearchDecorateAnnotations,
      dpiComponent.dpiAnnotations, hL, hD]
  rw [hAnn]
  constructor
  · exact List.mem_append_left _ (mapInsert_mem_self _ _ _)
  · intro kv hkv hne
    exact List.mem_append_left _ (mapInsert_mem_of_mem _ _ _ kv hkv hne)

/-- Witness for C6 at a concrete configuration: both the node-certificate
fingerprint entry and the bundle fingerprint entry are stamped. -/
theorem dpi_annotation_stamping_witness :
    ("hash.operator.tigera.io/node-certs", "fp-node") ∈
        ((DPI cfgFull).dpiDaemonset).Template.ObjectMeta.Annotations ∧
    ("hash.operator.tigera.io/tigera-ca-private", "fp-bundle") ∈
        ((DPI cfgFull).dpiDaemonset).Template.ObjectMeta.Annotations :=
  ⟨(dpi_annotation_stamping cfgFull rfl rfl).1,
   (dpi_annotation_stamping cfgFull rfl rfl).2
     ("hash.operator.tigera.io/tigera-ca-private", "fp-bundle")
     (by simp [cfgFull, typhaNodeTLSExample, TrustedBundleModel.HashAnnotations])
     (by decide)⟩

/-- Claim C1: for every DPI configuration, the toCreate and toDelete lists of
`Objects()` are disjoint by identity (kind, namespace, name). -/
theorem dpi_objects_disjoint (cfg : DPIConfig) :
    ∀ o₁ ∈ (DPI cfg).Objects.fst, ∀ o₂ ∈ (DPI cfg).Objects.snd,
      o₁.identity ≠ o₂.identity := by
  intro o₁ h₁ o₂ h₂
  cases hL : cfg.HasNoLicense <;> cases hD : cfg.HasNoDPIResource <;>
    simp [dpiComponent.Objects, DPI, hL, hD, secretToRuntimeObjects,
      secretCopyToNamespace] at h₁ h₂
  subst h₁
  rcases h₂ with rfl | ⟨s, hs, rfl⟩ | rfl | rfl | rfl | rfl <;>
    simp [ClientObject.identity, ClientObject.kind, ClientObject.objectMeta]

/-- Witness for C1: at a configuration where both lists are non-empty, the
theorem separates the created namespace from a deleted owned object. -/
theorem dpi_objects_disjoint_witness :
    (ClientObject.namespaceObj (renderCreateNamespace DeepPacketInspectionNamespace
        Provider.providerNone)).identity ≠
      (ClientObject.serviceAccountObj ((DPI cfgOnlyNoDPI).dpiServiceAccount)).identity :=
  dpi_objects_disjoint cfgOnlyNoDPI _ (by decide) _ (by decide)

/-- Claim C3: whenever the pass reaches the topology check with both a
ManagementCluster and a ManagementClusterConnection present, `Reconcile`
returns a non-nil error, sets the status to degraded with that error, and
returns before the renderer is invoked. -/
theorem reconcile_both_management_rejected (env : APIServerReconcileEnv)
    (h1 : env.GetAPIServer = .ok ())
    (h2 : env.GetInstallation = .ok TigeraSecureEnterprise)
    (h3 : env.CertificateManagerCreate = .ok ())
    (h4 : env.GetOrCreateKeyPair = .ok ())
    (h5 : env.GetNetworkingPullSecrets = .ok ())
    (h6 : env.GetManagementCluster = .ok (some ()))
    (h7 : env.GetManagementClusterConnection = .ok (some ())) :
    (reconcileAPIServer env).Err = some bothManagementClustersMsg ∧
    (reconcileAPIServer env).Degraded = some bothManagementClustersMsg ∧
    (reconcileAPIServer env).RendererInvoked = false := by
  simp [reconcileAPIServer, reconcileAPIServerEnterprise, h1, h2, h3, h4, h5, h6, h7,
    TigeraSecureEnterprise]

/-- Witness for C3 at a concrete all-success environment with both management
resources present. -/
theorem reconcile_both_management_rejected_witness :
    (reconcileAPIServer envBoth).Err = some bothManagementClustersMsg ∧
    (reconcileAPIServer envBoth).Degraded = some bothManagementClustersMsg ∧
    (reconcileAPIServer envBoth).RendererInvoked = false :=
  reconcile_both_management_rejected envBoth rfl rfl rfl rfl rfl rfl rfl

/-- Claim C2 counterexample: at a configuration with the license present but
the DeepPacketInspection resource absent, a prerequisite is false yet
`toCreate` is not empty — it contains the namespace resource, which moreover
does not appear in `toDelete`. -/
theorem dpi_gating_counterexample :
    cfgOnlyNoDPI.HasNoDPIResource = true ∧
    (DPI cfgOnlyNoDPI).Objects.fst =
      [ClientObject.namespaceObj (renderCreateNamespace DeepPacketInspectionNamespace
        Provider.providerNone)] ∧
    ClientObject.namespaceObj (renderCreateNamespace DeepPacketInspectionNamespace
        Provider.providerNone) ∉ (DPI cfgOnlyNoDPI).Objects.snd := by
  refine ⟨rfl, rfl, ?_⟩
  decide

/-- Claim C2 (amended): when `HasNoLicense` is true, the namespace resource
and all owned objects are placed in `toDelete` and `toCreate` is empty; when
only `HasNoDPIResource` is true, all owned objects are placed in `toDelete`
and none in `toCreate`, but the namespace resource stays in `toCreate` (and is
not deleted). -/
theorem dpi_gating_amended (cfg : DPIConfig) :
    (cfg.HasNoLicense = true →
      (DPI cfg).Objects.fst = [] ∧
      ClientObject.namespaceObj (renderCreateNamespace DeepPacketInspectionNamespace
        cfg.Installation.KubernetesProvider) ∈ (DPI cfg).Objects.snd ∧
      dpiOwnedInDelete cfg) ∧
    (cfg.HasNoLicense = false → cfg.HasNoDPIResource = true →
      (DPI cfg).Objects.fst =
        [ClientObject.namespaceObj (renderCreateNamespace DeepPacketInspectionNamespace
          cfg.Installation.KubernetesProvider)] ∧
      ClientObject.namespaceObj (renderCreateNamespace DeepPacketInspectionNamespace
        cfg.Installation.KubernetesProvider) ∉ (DPI cfg).Objects.snd ∧
      dpiOwnedInDelete cfg) := by
  constructor
  · intro hL
    refine ⟨?_, ?_, ?_⟩
    · simp [dpiComponent.Objects, DPI, hL]
    · simp [dpiComponent.Objects, DPI, hL]
    · unfold dpiOwnedInDelete
      refine ⟨?_, ?_, ?_, ?_, ?_, ?_⟩ <;>
        simp [dpiComponent.Objects, DPI, hL, secretToRuntimeObjects, secretCopyToNamespace]
      intro a ha
      exact Or.inr ⟨a, ha, rfl, rfl, rfl⟩
  · intro hL hD
    refine ⟨?_, ?_, ?_⟩
    · simp [dpiComponent.Objects, DPI, hL, hD]
    · simp [dpiComponent.Objects, DPI, hL, hD, secretToRuntimeObjects, secretCopyToNamespace]
    · unfold dpiOwnedInDelete
      refine ⟨?_, ?_, ?_, ?_, ?_, ?_⟩ <;>
        simp [dpiComponent.Objects, DPI, hL, hD, secretToRuntimeObjects, secretCopyToNamespace]
      intro a ha
      exact Or.inr ⟨a, ha, rfl, rfl, rfl⟩

/-- Witness for the amended C2 at a concrete license-less configuration. -/
theorem dpi_gating_amended_witness :
    (DPI cfgNoLicense).Objects.fst = [] ∧
    ClientObject.namespaceObj (renderCreateNamespace DeepPacketInspectionNamespace
      cfgNoLicense.Installation.KubernetesProvider) ∈ (DPI cfgNoLicense).Objects.snd ∧
    dpiOwnedInDelete cfgNoLicense :=
  (dpi_gating_amended cfgNoLicense).1 rfl

/-- Claim C9: in the toCreate list, dependencies precede dependents — the
namespace is first, the daemonset is last, and the copied secrets and the
service account sit at earlier positions than the daemonset. -/
theorem dpi_create_ordering (cfg : DPIConfig)
    (hL : cfg.HasNoLicense = false) (hD : cfg.HasNoDPIResource = false) :
    ((DPI cfg).Objects.fst).head? =
      some (ClientObject.namespaceObj (renderCreateNamespace DeepPacketInspectionNamespace
        cfg.Installation.KubernetesProvider)) ∧
    ((DPI cfg).Objects.fst).getLast? =
      some (ClientObject.daemonSetObj ((DPI cfg).dpiDaemonset)) ∧
    ClientObject.serviceAccountObj ((DPI cfg).dpiServiceAccount) ∈
      ((DPI cfg).Objects.fst).dropLast ∧
    (∀ s ∈ secretCopyToNamespace DeepPacketInspectionNamespace (cfg.ESSecrets ++ cfg.PullSecrets),
      ClientObject.secretObj s ∈ ((DPI cfg).Objects.fst).dropLast) := by
  have hfst : (DPI cfg).Objects.fst =
      (ClientObject.namespaceObj (renderCreateNamespace DeepPacketInspectionNamespace
          cfg.Installation.KubernetesProvider) ::
        (secretToRuntimeObjects (secretCopyToNamespace DeepPacketInspectionNamespace cfg.ESSecrets) ++
         secretToRuntimeObjects (secretCopyToNamespace DeepPacketInspectionNamespace cfg.PullSecrets) ++
         [ClientObject.serviceAccountObj ((DPI cfg).dpiServiceAccount),
          ClientObject.clusterRoleObj ((DPI cfg).dpiClusterRole),
          ClientObject.clusterRoleBindingObj ((DPI cfg).dpiClusterRoleBinding)])) ++
        [ClientObject.daemonSetObj ((DPI cfg).dpiDaemonset)] := by
    simp [dpiComponent.Objects, DPI, hL, hD]
  rw [hfst]
  refine ⟨rfl, ?_, ?_, ?_⟩
  · rw [List.getLast?_concat]
  · rw [List.dropLast_concat]
    simp
  · intro s hs
    rw [List.dropLast_concat]
    have hs' : s ∈ secretCopyToNamespace DeepPacketInspectionNamespace cfg.ESSecrets ++
        secretCopyToNamespace DeepPacketInspectionNamespace cfg.PullSecrets := by
      simpa [secretCopyToNamespace] using hs
    rcases List.mem_append.mp hs' with h | h <;>
      simp [secretToRuntimeObjects, List.mem_append, List.mem_map, h]

/-- Witness for C9 at a concrete configuration with both prerequisites. -/
theorem dpi_create_ordering_witness :
    ((DPI cfgFull).Objects.fst).head? =
      some (ClientObject.namespaceObj (renderCreateNamespace DeepPacketInspectionNamespace
        cfgFull.Installation.KubernetesProvider)) ∧
    ((DPI cfgFull).Objects.fst).getLast? =
      some (ClientObject.daemonSetObj ((DPI cfgFull).dpiDaemonset)) ∧
    ClientObject.serviceAccountObj ((DPI cfgFull).dpiServiceAccount) ∈
      ((DPI cfgFull).Objects.fst).dropLast ∧
    (∀ s ∈ secretCopyToNamespace DeepPacketInspectionNamespace
        (cfgFull.ESSecrets ++ cfgFull.PullSecrets),
      ClientObject.secretObj s ∈ ((DPI cfgFull).Objects.fst).dropLast) :=
  dpi_create_ordering cfgFull rfl rfl
